import Mathlib

/-!
Verification development for the KUMA-EYE alert-notification dispatch pipeline.

Shallow embedding of:
- `backend/app/services/geocoding_service.py` (reverse geocoding with module cache)
- `backend/app/services/notification_service.py` (dispatch, recipient selection,
  message composition, attachment building, delivery ledger updates)
- `backend/app/presenters/image_url.py` (`build_image_url`)

Machine integers/floats are idealised as `Nat`/`Int`/`ℚ`; timestamps are `Int`
(minutes); external effects (HTTP geocoding, SMTP transport, filesystem,
advisory locks, the spatial engine's distance) are oracles carried in
environment records, faithful to where the Python code calls out.
-/

set_option maxHeartbeats 1000000
set_option maxRecDepth 4000

/-- Python `round` (banker's rounding, half to even) on an exact rational. -/
def bankersRound (q : ℚ) : ℤ :=
  let f : ℤ := ⌊q⌋
  let frac : ℚ := q - (f : ℚ)
  if frac < 1/2 then f
  else if 1/2 < frac then f + 1
  else if f % 2 = 0 then f else f + 1

/-- Left-pads a digit string with zeros to the given width. -/
def zeroPad (w : Nat) (s : String) : String :=
  String.mk (List.replicate (w - s.length) '0') ++ s

/-- Python `f"{q:.d f}"` fixed-point formatting with `d` decimals, on an exact
rational (float representation effects idealised away). -/
def fmtFixed (decimals : Nat) (q : ℚ) : String :=
  let scale : ℕ := 10 ^ decimals
  let n : ℤ := bankersRound (q * (scale : ℚ))
  let sign := if n < 0 then "-" else ""
  let m : ℕ := n.natAbs
  sign ++ toString (m / scale) ++ "." ++ zeroPad decimals (toString (m % scale))

/-- Python `f"{q:.6f}"`. -/
def fmt6 (q : ℚ) : String := fmtFixed 6 q

/-- Python `f"{q:.1f}"`. -/
def fmt1 (q : ℚ) : String := fmtFixed 1 q

/-- Python `"sep".join(lines)` (same as `String.intercalate`, unfolded for
directly usable equations). -/
def joinWith (sep : String) : List String → String
  | [] => ""
  | [x] => x
  | x :: y :: xs => x ++ sep ++ joinWith sep (y :: xs)

/-- Python slicing `s[:n]`: the first `n` characters. -/
def strTake (s : String) (n : Nat) : String := String.mk (s.data.take n)

/-- Python `s.lstrip("/")`. -/
def lstripSlash (s : String) : String := String.mk (s.data.dropWhile (· == '/'))

/-- Python `s.rstrip("/")`. -/
def rstripSlash (s : String) : String :=
  String.mk ((s.data.reverse.dropWhile (· == '/')).reverse)

/-! ## Geocoding service (`geocoding_service.py`) -/

/-- Dataclass `AddressResult(prefecture, municipality)` from
`geocoding_service.py` lines 15-18. -/
structure AddressResult where
  prefecture : Option String
  municipality : Option String
  deriving DecidableEq, Repr

/-- Parsed JSON payload of the Nominatim response (`response.json()`). -/
inductive Json where
  | null
  | str (s : String)
  | num (q : ℚ)
  | bool (b : Bool)
  | arr (elems : List Json)
  | obj (fields : List (String × Json))

/-- Python `d.get(key)` on a JSON object; `none` when absent or not a dict. -/
def Json.get : Json → String → Option Json
  | .obj fields, key => (fields.find? (fun p => p.1 == key)).map (·.2)
  | _, _ => none

/-- Python truthiness of a JSON value (used by the `or` chain in
`_extract_address_components`). -/
def Json.truthy : Json → Bool
  | .null => false
  | .str s => s != ""
  | .num q => q != 0
  | .bool b => b
  | .arr elems => !elems.isEmpty
  | .obj fields => !fields.isEmpty

/-- Python `a or b` over optional JSON values: keeps the first truthy operand. -/
def jsonOr (a b : Option Json) : Option Json :=
  match a with
  | some v => if v.truthy then some v else b
  | none => b

/-- Python `isinstance(v, str) ... else None` projection. -/
def Json.asStr : Option Json → Option String
  | some (.str s) => some s
  | _ => none

/-- Embeds `_extract_address_components` (geocoding_service.py lines 28-44):
`address = payload.get("address") if isinstance(payload, dict) else {}`; when
`address` is not a dict the result is `AddressResult(None, None)`; otherwise
`prefecture = address.get("state")` and `municipality` is the truthiness-`or`
chain over city/town/village/county/municipality, each kept only if a string. -/
def extract_address_components (payload : Json) : AddressResult :=
  let address : Option Json :=
    match payload with
    | .obj fields => (Json.obj fields).get "address"
    | _ => some (Json.obj [])
  match address with
  | some (.obj fields) =>
    let addr := Json.obj fields
    let prefecture := addr.get "state"
    let municipality :=
      jsonOr (addr.get "city")
        (jsonOr (addr.get "town")
          (jsonOr (addr.get "village")
            (jsonOr (addr.get "county") (addr.get "municipality"))))
    { prefecture := Json.asStr prefecture, municipality := Json.asStr municipality }
  | _ => { prefecture := none, municipality := none }

/-- Module-level mutable dict `_cache: dict[tuple[float, float], AddressResult | None]`
(geocoding_service.py line 21), as an insertion-ordered association list
(Python dicts preserve insertion order). -/
abbrev GeoCache := List ((ℚ × ℚ) × Option AddressResult)

/-- Python `key in _cache` / `_cache[key]` lookup. -/
def cacheFind (cache : GeoCache) (key : ℚ × ℚ) : Option (Option AddressResult) :=
  (cache.find? (fun e => e.1 == key)).map (·.2)

/-- Embeds `_cache_key` (geocoding_service.py lines 24-25):
`(round(latitude, 6), round(longitude, 6))`. -/
def cache_key (latitude longitude : ℚ) : ℚ × ℚ :=
  ((bankersRound (latitude * 1000000) : ℚ) / 1000000,
   (bankersRound (longitude * 1000000) : ℚ) / 1000000)

/-- External-world oracle for the geocoding service: the configuration flag
`settings.GEOCODING_ENABLED` and the outcome of the `httpx.get` call at given
coordinates. `http = none` models the whole `except Exception` branch: the HTTP
request raising, timing out, `raise_for_status` failing, or `response.json()`
being unparsable. (The `GEOCODING_*` settings are read by
`geocoding_service.py` but declared outside `src`; they are carried here as
abstract configuration, per the spec's configuration surface.) -/
structure GeoEnv where
  enabled : Bool
  http : ℚ → ℚ → Option Json

/-- Embeds `reverse_geocode` (geocoding_service.py lines 47-75) with the global
`_cache` passed explicitly. Returns the cache after the call and the result:
disabled → `None`; cached key → cached value; otherwise HTTP fetch, parse, and
store in the cache (no eviction of any kind occurs in the source); any failure
returns `None` without caching. -/
def reverse_geocode (env : GeoEnv) (cache : GeoCache) (latitude longitude : ℚ) :
    GeoCache × Option AddressResult :=
  if !env.enabled then (cache, none)
  else
    let key := cache_key latitude longitude
    match cacheFind cache key with
    | some cached => (cache, cached)
    | none =>
      match env.http latitude longitude with
      | some payload =>
        let result := extract_address_components payload
        (cache ++ [(key, some result)], some result)
      | none => (cache, none)

/-! ## Notification service helpers (`notification_service.py`) -/

/-- Set literal `NOTIFIABLE_ALERT_LEVELS = {"critical", "warning", "caution"}`
(notification_service.py line 22). -/
def NOTIFIABLE_ALERT_LEVELS : List String := ["critical", "warning", "caution"]

/-- Embeds `_build_email_subject` (notification_service.py lines 25-32). -/
def build_email_subject (alert_level : String) : String :=
  let level_labels : List (String × String) :=
    [("critical", "危険"), ("warning", "警戒"), ("caution", "注意")]
  let level_label := ((level_labels.find? (fun p => p.1 == alert_level)).map (·.2)).getD "通知"
  "[KUMA-EYE] " ++ level_label ++ " クマ検出アラート"

/-- Embeds `_build_google_maps_url` (notification_service.py lines 35-36). -/
def build_google_maps_url (latitude longitude : ℚ) : String :=
  "https://www.google.com/maps?q=" ++ fmt6 latitude ++ "," ++ fmt6 longitude

/-- Embeds `_to_absolute_url` (notification_service.py lines 39-44);
`appBaseUrl` stands for `settings.APP_BASE_URL`. -/
def to_absolute_url (appBaseUrl : String) (path_or_url : Option String) : Option String :=
  match path_or_url with
  | none => none
  | some p =>
    if p == "" then none
    else if p.startsWith "http://" || p.startsWith "https://" then some p
    else some (rstripSlash appBaseUrl ++ "/" ++ lstripSlash p)

/-- Embeds `build_image_url` (presenters/image_url.py lines 8-19);
`storagePath` stands for `settings.LOCAL_STORAGE_PATH`. -/
def build_image_url (storagePath : String) (image_path : Option String) : Option String :=
  match image_path with
  | none => none
  | some ip =>
    if ip == "" then none
    else
      let relative_path :=
        if ip.startsWith storagePath then lstripSlash (ip.drop storagePath.length)
        else ip
      some ("/api/v1/images/" ++ relative_path)

/-- Embeds `_format_address` (notification_service.py lines 47-55): reverse
geocode; on `None` or on an all-empty result return the failure marker,
otherwise join the truthy parts with a space. Python truthiness on
`(address.prefecture, address.municipality)` keeps non-`None`, non-empty
strings. -/
def format_address (env : GeoEnv) (cache : GeoCache) (latitude longitude : ℚ) : String :=
  match (reverse_geocode env cache latitude longitude).2 with
  | none => "取得失敗（緯度経度を参照）"
  | some address =>
    let parts := ([address.prefecture, address.municipality].filterMap id).filter (· != "")
    if parts.isEmpty then "取得失敗（緯度経度を参照）"
    else joinWith " " parts

/-! ## Data model (`models/database.py`, plus spec-modelled recipient/ledger rows) -/

/-- Row of `cameras` (models/database.py) restricted to the fields dispatch
reads (`camera.name`). -/
structure Camera where
  id : Nat
  name : String
  deriving DecidableEq, Repr

/-- Row of `uploads` restricted to the fields dispatch reads, with its joined
`camera` relationship (nullable: `camera_id` is `ON DELETE SET NULL`). -/
structure Upload where
  id : Nat
  camera : Option Camera
  deriving DecidableEq, Repr

/-- Row of `sightings` restricted to the fields dispatch reads, with its joined
`upload` relationship. Coordinates are decimal degrees as exact rationals;
`detected_at` is an idealised timestamp. -/
structure Sighting where
  id : Nat
  latitude : ℚ
  longitude : ℚ
  detected_at : Int
  confidence : ℚ
  bear_count : Nat
  image_path : Option String
  upload : Option Upload
  deriving DecidableEq, Repr

/-- Row of `alerts` restricted to the fields dispatch reads, with its joined
`sighting` relationship. -/
structure Alert where
  id : Nat
  alert_level : String
  message : String
  sighting : Option Sighting
  deriving DecidableEq, Repr

/-- Modelled from the spec: the `User` ORM model is imported by
`notification_service.py` but not defined under `src` (models/database.py has
no `User`). Fields follow spec §3 ("unique id, contact address (email), opt-in
flag, last-known coordinates, timestamp of last location update") and the
columns the selection query filters on (`email_opt_in`, `email`, `location`,
`location_updated_at`). `location` is a PostGIS point stored as
(longitude, latitude), matching `ST_MakePoint(lon, lat)`. -/
structure User where
  id : Nat
  email : Option String
  email_opt_in : Bool
  location : Option (ℚ × ℚ)
  location_updated_at : Option Int
  deriving DecidableEq, Repr

/-- Modelled from the spec: the `AlertNotification` ORM model (the delivery
ledger) is imported by `notification_service.py` but not defined under `src`.
Fields follow spec §3 DeliveryRecord: alert reference, user reference, channel,
status (`"sent"`/`"failed"`), error detail. The `sent_at` timestamp is omitted
as no claim observes it. -/
structure AlertNotification where
  alert_id : Nat
  user_id : Nat
  channel : String
  status : String
  error_message : Option String
  deriving DecidableEq, Repr

/-- The relational store as dispatch sees it: the alerts table (with joined
rows), the user directory, and the delivery ledger. -/
structure DB where
  alerts : List Alert
  users : List User
  notifications : List AlertNotification
  deriving DecidableEq, Repr

/-- Does a ledger row for tuple `(a, u, ch)` exist?  (SQL uniqueness-check view
of the ledger.) -/
def hasRow (rows : List AlertNotification) (a u : Nat) (ch : String) : Bool :=
  rows.any (fun r => r.alert_id == a && r.user_id == u && r.channel == ch)

/-- Modelled from the spec: `db.add(row); db.commit()` against the ledger's
unique constraint on `(alert_id, user_id, channel)` (spec §5: "a unique
constraint on (alert_id, user_id, channel) that a concurrent insert will
violate"; the constraint itself lives in the `AlertNotification` model absent
from `src`, and `notify_for_alert` catches the resulting `IntegrityError`).
`none` models the commit raising `IntegrityError`; `some` is the committed
table. -/
def commitInsert (rows : List AlertNotification) (r : AlertNotification) :
    Option (List AlertNotification) :=
  if hasRow rows r.alert_id r.user_id r.channel then none
  else some (rows ++ [r])

/-! ## Attachment building (`notification_service.py` lines 58-99) -/

/-- Modelled from the spec: dataclass `EmailAttachment(filename, content,
mime_type)` is imported from `email_service.py`, whose version under `src`
does not define it (the repository's tests construct it with exactly these
fields); content bytes are idealised as `List Nat`. -/
structure EmailAttachment where
  filename : String
  content : List Nat
  mime_type : String
  deriving DecidableEq, Repr

/-- Filesystem oracle for `_build_image_attachment`. A resolved path
(`Path(...).resolve()`) is its list of components below the root; `resolve`
returning `none` models the constructor/resolution raising. `readBytes = none`
models `read_bytes()` raising. -/
structure FSModel where
  resolve : String → Option (List String)
  pathExists : List String → Bool
  isFile : List String → Bool
  size : List String → Nat
  readBytes : List String → Option (List Nat)

/-- Python `Path.name`: last component of the resolved path. -/
def pathName (p : List String) : String := p.getLast? |>.getD ""

/-- Python `Path.suffix`: `name[i:]` for the last `.` at index `i` when
`0 < i < len(name) - 1`, else the empty string. -/
def pathSuffix (name : String) : String :=
  let cs := name.data
  let j := cs.reverse.indexOf '.'
  if j == cs.length then ""
  else
    let i := cs.length - 1 - j
    if 0 < i && i < cs.length - 1 then name.drop i else ""

/-- Python `s.lower()` (ASCII-adequate for file extensions). -/
def strLower (s : String) : String := String.mk (s.data.map Char.toLower)

/-- Dict literal `mime_type_map` (notification_service.py lines 80-86). -/
def mime_type_map : List (String × String) :=
  [(".jpg", "image/jpeg"), (".jpeg", "image/jpeg"), (".png", "image/png"),
   (".gif", "image/gif"), (".webp", "image/webp")]

/-- Python `storage_root in image_path.parents`: the root is a strict ancestor,
i.e. a proper component-prefix of the resolved path. -/
def inParents (storage_root image_path : List String) : Bool :=
  storage_root.isPrefixOf image_path && storage_root.length < image_path.length

/-- Embeds `_build_image_attachment` (notification_service.py lines 58-99).
`storagePath` stands for `settings.LOCAL_STORAGE_PATH` and `maxBytes` for
`settings.EMAIL_ATTACHMENT_MAX_BYTES` (the latter is read by the service but
declared outside `src`; spec §4.2: "attachments above a configured byte-size
ceiling are silently omitted"). Guard order follows the source: missing
sighting/empty path, resolution failure, outside storage root, not an existing
regular file, oversized, extension outside the MIME allow-list, read failure —
each yields `None`. -/
def build_image_attachment (fs : FSModel) (storagePath : String) (maxBytes : Nat)
    (sighting : Option Sighting) : Option EmailAttachment :=
  match sighting with
  | none => none
  | some s =>
    match s.image_path with
    | none => none
    | some ip =>
      if ip == "" then none
      else
        match fs.resolve ip, fs.resolve storagePath with
        | some image_path, some storage_root =>
          if !inParents storage_root image_path then none
          else if !fs.pathExists image_path || !fs.isFile image_path then none
          else if fs.size image_path > maxBytes then none
          else
            match (mime_type_map.find? (fun p => p.1 == strLower (pathSuffix (pathName image_path)))).map (·.2) with
            | none => none
            | some mt =>
              match fs.readBytes image_path with
              | some bytes => some ⟨pathName image_path, bytes, mt⟩
              | none => none
        | _, _ => none

/-! ## Message body (`notification_service.py` lines 102-137) -/

/-- The `lines` list built by `_build_email_body` before `"\n".join`. -/
def build_email_body_lines (genv : GeoEnv) (cache : GeoCache) (alert : Alert)
    (image_url : Option String) (has_attachment : Bool) : List String :=
  let camera_name :=
    match alert.sighting with
    | some s =>
      (match s.upload with
       | some up => (match up.camera with | some c => c.name | none => "指定地点")
       | none => "指定地点")
    | none => "指定地点"
  let base :=
    ["クマ検出アラートを受信しました。", "",
     "レベル: " ++ alert.alert_level, "内容: " ++ alert.message]
  let middle :=
    match alert.sighting with
    | none => []
    | some s =>
      let address_text := format_address genv cache s.latitude s.longitude
      let map_url := build_google_maps_url s.latitude s.longitude
      ["検出時刻: " ++ toString s.detected_at,
       "住所: " ++ address_text,
       "位置: 緯度 " ++ fmt6 s.latitude ++ ", 経度 " ++ fmt6 s.longitude,
       "地図: " ++ map_url,
       "検出数: " ++ toString s.bear_count ++ "頭",
       "信頼度: " ++ fmt1 (s.confidence * 100) ++ "%",
       "カメラ: " ++ camera_name]
      ++ (if has_attachment then ["検出画像: このメールに添付しています。"]
          else match image_url with
               | some url => ["検出画像: " ++ url]
               | none => [])
  base ++ middle ++ ["", "このメールはKUMA-EYE通知システムから自動送信されています。"]

/-- Embeds `_build_email_body` (notification_service.py lines 102-137):
`"\n".join(lines)`; `detected_at.isoformat()` is idealised as rendering the
integer timestamp. -/
def build_email_body (genv : GeoEnv) (cache : GeoCache) (alert : Alert)
    (image_url : Option String) (has_attachment : Bool) : String :=
  joinWith "\n" (build_email_body_lines genv cache alert image_url has_attachment)

/-! ## Recipient selection and dispatch (`notification_service.py` lines 140-282) -/

/-- Notification-related configuration read by the service
(`settings.NOTIFY_RADIUS_METERS`, `settings.NOTIFY_STALE_MINUTES`,
`settings.APP_BASE_URL`, `settings.LOCAL_STORAGE_PATH` from core/config.py,
plus the attachment ceiling `EMAIL_ATTACHMENT_MAX_BYTES` read by the service
but declared outside `src`). -/
structure Config where
  NOTIFY_RADIUS_METERS : ℚ
  NOTIFY_STALE_MINUTES : Int
  APP_BASE_URL : String
  LOCAL_STORAGE_PATH : String
  EMAIL_ATTACHMENT_MAX_BYTES : Nat

/-- Embeds `_get_alert` (notification_service.py lines 140-148): first alert
row with the given id, relationships already joined into the row. -/
def get_alert (db : DB) (alert_id : Nat) : Option Alert :=
  db.alerts.find? (fun a => a.id == alert_id)

/-- Embeds `_get_nearby_recipients` (notification_service.py lines 151-177).
`dist` is the spatial engine's geographic distance in meters between two
(longitude, latitude) points — `ST_DWithin(u.location::geography,
alert_point::geography, radius)` is `dist ≤ radius`; `now` stands for
`datetime.now()`.  The SQL filter chain is conjoined in source order; SQL
three-valued comparisons against NULL are false. -/
def get_nearby_recipients (dist : ℚ × ℚ → ℚ × ℚ → ℚ) (now : Int) (cfg : Config)
    (users : List User) (alert : Alert) : List User :=
  match alert.sighting with
  | none => []
  | some s =>
    let stale_threshold := now - cfg.NOTIFY_STALE_MINUTES
    let alert_point : ℚ × ℚ := (s.longitude, s.latitude)
    users.filter (fun u =>
      u.email_opt_in
      && u.email.isSome
      && (match u.email with | some e => e != "" | none => false)
      && u.location.isSome
      && u.location_updated_at.isSome
      && (match u.location_updated_at with
          | some t => decide (stale_threshold ≤ t)
          | none => false)
      && (match u.location with
          | some loc => decide (dist loc alert_point ≤ cfg.NOTIFY_RADIUS_METERS)
          | none => false))

/-- Embeds `_try_lock_notification_slot`'s lock key (notification_service.py
line 184): `(alert_id << 32) | user_id`. -/
def lock_key (alert_id user_id : Nat) : Nat :=
  (alert_id <<< 32) ||| user_id

/-- The stats dict built by `notify_for_alert` (notification_service.py lines
195-203). -/
structure Stats where
  alert_id : Nat
  processed : Bool
  eligible : Bool
  targets : Nat
  sent : Nat
  failed : Nat
  skipped : Nat
  deriving DecidableEq, Repr

/-- Environment of one `notify_for_alert` call: configuration, clock, spatial
distance, geocoding world, filesystem, and the two remaining external effects —
the advisory-lock primitive (`pg_try_advisory_xact_lock` outcome per
(alert_id, user_id); in a sequential, uncontended call it returns true) and the
SMTP transport (`send_email` outcome per recipient user id; `Except.error msg`
models the call raising with text `msg`). -/
structure NotifyEnv where
  dist : ℚ × ℚ → ℚ × ℚ → ℚ
  now : Int
  cfg : Config
  geo : GeoEnv
  geoCache : GeoCache
  fs : FSModel
  tryLock : Nat → Nat → Bool
  sendResult : Nat → Except String Unit

/-- One iteration of the recipient loop in `notify_for_alert`
(notification_service.py lines 237-280), acting on the accumulated
(ledger rows, stats, `existing_user_ids`) state:
already-recorded user → skip; advisory lock unavailable → skip; otherwise send:
on success insert-and-commit the `sent` row (a commit-time `IntegrityError`
falls into the generic `except` and is retried as a `failed` row); on failure
roll back and insert the `failed` row with the error text truncated to 2000
characters, counting `skipped` instead when that commit itself raises
`IntegrityError`. -/
def processRecipient (env : NotifyEnv) (alertId : Nat)
    (acc : List AlertNotification × Stats × List Nat) (u : User) :
    List AlertNotification × Stats × List Nat :=
  let (rows, stats, existing) := acc
  if existing.contains u.id then
    (rows, { stats with skipped := stats.skipped + 1 }, existing)
  else if !env.tryLock alertId u.id then
    (rows, { stats with skipped := stats.skipped + 1 }, existing)
  else
    let recordFailure (msg : String) :
        List AlertNotification × Stats × List Nat :=
      let failure : AlertNotification :=
        { alert_id := alertId, user_id := u.id, channel := "email",
          status := "failed", error_message := some (strTake msg 2000) }
      match commitInsert rows failure with
      | some rows2 => (rows2, { stats with failed := stats.failed + 1 }, existing)
      | none => (rows, { stats with skipped := stats.skipped + 1 }, existing)
    match env.sendResult u.id with
    | .ok _ =>
      let notification : AlertNotification :=
        { alert_id := alertId, user_id := u.id, channel := "email",
          status := "sent", error_message := none }
      match commitInsert rows notification with
      | some rows2 =>
        (rows2, { stats with sent := stats.sent + 1 }, existing ++ [u.id])
      | none => recordFailure "IntegrityError"
    | .error msg => recordFailure msg

/-- Snapshot `existing_user_ids` (notification_service.py lines 220-228): user
ids of ledger rows for this alert on the email channel, any status. -/
def existingUserIds (rows : List AlertNotification) (alertId : Nat) : List Nat :=
  (rows.filter (fun r => r.alert_id == alertId && r.channel == "email")).map
    (fun r => r.user_id)

/-- Embeds `notify_for_alert` (notification_service.py lines 191-282) as a pure
function from the database and environment to the updated database and the
returned stats dict. -/
def notify_for_alert (env : NotifyEnv) (db : DB) (alert_id : Nat) : DB × Stats :=
  let stats0 : Stats :=
    { alert_id := alert_id, processed := false, eligible := false,
      targets := 0, sent := 0, failed := 0, skipped := 0 }
  match get_alert db alert_id with
  | none => (db, stats0)
  | some alert =>
    let stats1 := { stats0 with processed := true }
    if !NOTIFIABLE_ALERT_LEVELS.contains alert.alert_level then (db, stats1)
    else
      let stats2 := { stats1 with eligible := true }
      let recipients := get_nearby_recipients env.dist env.now env.cfg db.users alert
      let stats3 := { stats2 with targets := recipients.length }
      if recipients.isEmpty then (db, stats3)
      else
        let existing := existingUserIds db.notifications alert.id
        let subject := build_email_subject alert.alert_level
        let attachment := build_image_attachment env.fs env.cfg.LOCAL_STORAGE_PATH
          env.cfg.EMAIL_ATTACHMENT_MAX_BYTES alert.sighting
        let image_url := to_absolute_url env.cfg.APP_BASE_URL
          (match alert.sighting with
           | some s => build_image_url env.cfg.LOCAL_STORAGE_PATH s.image_path
           | none => none)
        let body := build_email_body env.geo env.geoCache alert image_url attachment.isSome
        let _ := (subject, body)
        let result := recipients.foldl (processRecipient env alert.id)
          (db.notifications, stats3, existing)
        ({ db with notifications := result.1 }, result.2.1)

/-! ## Concurrent dispatch as a transition system (for the no-double-send
invariant)

Each process runs `notify_for_alert` for some alert over its recipient-id list.
Following the structure of the source, the database-visible phases are separate
steps: the pre-existence snapshot (lines 220-228), the advisory-lock claim
(`pg_try_advisory_xact_lock`, transaction-scoped: released when that recipient's
transaction ends in `commit()`/`rollback()`), the transport send, the `sent`
ledger commit, and — after a rollback — the `failed` ledger commit. Commits go
through `commitInsert`, i.e. against the ledger's unique constraint. -/

/-- Program counter of one dispatch process inside its recipient loop. -/
inductive PC where
  /-- Before the `existing_user_ids` snapshot query. -/
  | start (recips : List Nat)
  /-- Between loop iterations, holding the snapshot. -/
  | loop (ex : List Nat) (recips : List Nat)
  /-- Advisory lock for the current user is held; send not yet attempted. -/
  | locked (ex : List Nat) (u : Nat) (rest : List Nat)
  /-- Send attempted with the given outcome; terminal commit pending. -/
  | inflight (ex : List Nat) (u : Nat) (rest : List Nat) (ok : Bool)
  /-- Transaction rolled back (lock released); `failed`-row commit pending. -/
  | recover (ex : List Nat) (u : Nat) (rest : List Nat)
  /-- Loop finished. -/
  | stopped
  deriving DecidableEq, Repr

/-- One dispatch process: the alert it was invoked for and its position. -/
structure Proc where
  alertId : Nat
  pc : PC
  deriving DecidableEq, Repr

/-- Global state: committed ledger rows, currently held advisory lock keys, and
the processes. -/
structure MState where
  rows : List AlertNotification
  locks : List Nat
  procs : List Proc
  deriving DecidableEq, Repr

/-- Interleaved small-step semantics of any number of concurrent
`notify_for_alert` executions, restricted to the ledger-visible protocol. -/
inductive NStep : MState → MState → Prop where
  /-- Pre-existence check: snapshot `existing_user_ids` from the current ledger. -/
  | snapshot (s : MState) (i a : Nat) (rs : List Nat)
      (hp : s.procs[i]? = some ⟨a, .start rs⟩) :
      NStep s { s with procs := s.procs.set i ⟨a, .loop (existingUserIds s.rows a) rs⟩ }
  /-- `user.id in existing_user_ids`: skip without touching the database. -/
  | skipExisting (s : MState) (i a : Nat) (ex : List Nat) (u : Nat) (rest : List Nat)
      (hp : s.procs[i]? = some ⟨a, .loop ex (u :: rest)⟩)
      (hmem : ex.contains u = true) :
      NStep s { s with procs := s.procs.set i ⟨a, .loop ex rest⟩ }
  /-- Advisory-lock claim fails (another transaction holds the key): skip. -/
  | lockFail (s : MState) (i a : Nat) (ex : List Nat) (u : Nat) (rest : List Nat)
      (hp : s.procs[i]? = some ⟨a, .loop ex (u :: rest)⟩)
      (hmem : ex.contains u = false)
      (hl : s.locks.contains (lock_key a u) = true) :
      NStep s { s with procs := s.procs.set i ⟨a, .loop ex rest⟩ }
  /-- Advisory-lock claim succeeds: key becomes held. -/
  | lockOk (s : MState) (i a : Nat) (ex : List Nat) (u : Nat) (rest : List Nat)
      (hp : s.procs[i]? = some ⟨a, .loop ex (u :: rest)⟩)
      (hmem : ex.contains u = false)
      (hl : s.locks.contains (lock_key a u) = false) :
      NStep s { s with locks := lock_key a u :: s.locks,
                       procs := s.procs.set i ⟨a, .locked ex u rest⟩ }
  /-- The transport send returns (`ok = true`) or raises (`ok = false`);
  either outcome is possible. -/
  | sendStep (s : MState) (i a : Nat) (ex : List Nat) (u : Nat) (rest : List Nat) (ok : Bool)
      (hp : s.procs[i]? = some ⟨a, .locked ex u rest⟩) :
      NStep s { s with procs := s.procs.set i ⟨a, .inflight ex u rest ok⟩ }
  /-- Successful send, `sent`-row commit succeeds; the transaction ends, so the
  advisory lock is released; the user is added to the local snapshot. -/
  | commitOk (s : MState) (i a : Nat) (ex : List Nat) (u : Nat) (rest : List Nat)
      (rows2 : List AlertNotification)
      (hp : s.procs[i]? = some ⟨a, .inflight ex u rest true⟩)
      (hc : commitInsert s.rows ⟨a, u, "email", "sent", none⟩ = some rows2) :
      NStep s { rows := rows2,
                locks := s.locks.filter (fun k => k != lock_key a u),
                procs := s.procs.set i ⟨a, .loop (ex ++ [u]) rest⟩ }
  /-- Successful send but the `sent` commit violates the unique constraint: the
  generic `except` catches it, `rollback()` releases the lock, and the process
  proceeds to record a `failed` row. -/
  | commitConflict (s : MState) (i a : Nat) (ex : List Nat) (u : Nat) (rest : List Nat)
      (hp : s.procs[i]? = some ⟨a, .inflight ex u rest true⟩)
      (hc : commitInsert s.rows ⟨a, u, "email", "sent", none⟩ = none) :
      NStep s { s with locks := s.locks.filter (fun k => k != lock_key a u),
                       procs := s.procs.set i ⟨a, .recover ex u rest⟩ }
  /-- The send raised: `rollback()` releases the lock; the process proceeds to
  record a `failed` row. -/
  | sendFailed (s : MState) (i a : Nat) (ex : List Nat) (u : Nat) (rest : List Nat)
      (hp : s.procs[i]? = some ⟨a, .inflight ex u rest false⟩) :
      NStep s { s with locks := s.locks.filter (fun k => k != lock_key a u),
                       procs := s.procs.set i ⟨a, .recover ex u rest⟩ }
  /-- The `failed`-row commit succeeds (counted as `failed`). -/
  | recoverOk (s : MState) (i a : Nat) (ex : List Nat) (u : Nat) (rest : List Nat)
      (msg : String) (rows2 : List AlertNotification)
      (hp : s.procs[i]? = some ⟨a, .recover ex u rest⟩)
      (hc : commitInsert s.rows ⟨a, u, "email", "failed", some msg⟩ = some rows2) :
      NStep s { s with rows := rows2, procs := s.procs.set i ⟨a, .loop ex rest⟩ }
  /-- The `failed`-row commit violates the unique constraint: rolled back,
  counted as `skipped`. -/
  | recoverConflict (s : MState) (i a : Nat) (ex : List Nat) (u : Nat) (rest : List Nat)
      (msg : String)
      (hp : s.procs[i]? = some ⟨a, .recover ex u rest⟩)
      (hc : commitInsert s.rows ⟨a, u, "email", "failed", some msg⟩ = none) :
      NStep s { s with procs := s.procs.set i ⟨a, .loop ex rest⟩ }
  /-- Recipient list exhausted. -/
  | finish (s : MState) (i a : Nat) (ex : List Nat)
      (hp : s.procs[i]? = some ⟨a, .loop ex []⟩) :
      NStep s { s with procs := s.procs.set i ⟨a, .stopped⟩ }

/-- The ledger respects its unique constraint: at most one row per
(alert, user, channel) tuple. -/
def ledgerUnique (rows : List AlertNotification) : Prop :=
  ∀ a u ch, (rows.filter
    (fun r => r.alert_id == a && r.user_id == u && r.channel == ch)).length ≤ 1

/-! ## Concrete fixtures (mirroring the repository's test scenario: a critical
alert at (35.6895, 139.6917) with one opted-in, fresh, nearby recipient) -/

def demoUser : User := ⟨99, some "to@example.com", true, some (139, 35), some 0⟩

def demoSighting : Sighting := ⟨11, 35, 139, 0, 1, 2, none, none⟩

def demoAlert : Alert := ⟨12, "critical", "クマを検出", some demoSighting⟩

def demoDB : DB := ⟨[demoAlert], [demoUser], []⟩

def demoCfg : Config := ⟨5000, 30, "", "./storage", 1000000⟩

def demoEnv : NotifyEnv :=
  { dist := fun _ _ => 0, now := 0, cfg := demoCfg,
    geo := ⟨false, fun _ _ => none⟩, geoCache := [],
    fs := ⟨fun _ => none, fun _ => false, fun _ => false, fun _ => 0, fun _ => none⟩,
    tryLock := fun _ _ => true, sendResult := fun _ => Except.ok () }

/-- Geocoding environment mirroring the test doubles of
`test_reverse_geocode_lru_cache_max_size`: enabled, every HTTP call succeeds. -/
def lruEnv : GeoEnv := ⟨true, fun _ _ => some (Json.obj [])⟩

def lruCache1 : GeoCache := (reverse_geocode lruEnv [] 1 0).1

def lruCache2 : GeoCache := (reverse_geocode lruEnv lruCache1 2 0).1

def lruCache3 : GeoCache := (reverse_geocode lruEnv lruCache2 3 0).1

/-! ## Lemmas: ledger uniqueness is preserved by every commit and every step -/

theorem length_filter_and_le (l : List AlertNotification)
    (p q : AlertNotification → Bool) :
    (l.filter (fun r => p r && q r)).length ≤ (l.filter p).length := by
  induction l with
  | nil => simp
  | cons r t ih =>
    by_cases hp : p r <;> by_cases hq : q r <;>
      simp [List.filter_cons, hp, hq] <;> omega

theorem commitInsert_preserves_unique (rows rows2 : List AlertNotification)
    (r : AlertNotification) (hu : ledgerUnique rows)
    (hc : commitInsert rows r = some rows2) : ledgerUnique rows2 := by
  unfold commitInsert at hc
  by_cases hrow : hasRow rows r.alert_id r.user_id r.channel
  · simp [hrow] at hc
  · simp [hrow] at hc
    subst hc
    intro a u ch
    rw [List.filter_append]
    by_cases hmatch : (r.alert_id == a && r.user_id == u && r.channel == ch) = true
    · obtain ⟨⟨ha, hb⟩, hch⟩ := by simpa [Bool.and_eq_true] using hmatch
      have ha' : r.alert_id = a := by simpa using ha
      have hb' : r.user_id = u := by simpa using hb
      have hch' : r.channel = ch := by simpa using hch
      subst ha'; subst hb'; subst hch'
      have hempty : rows.filter
          (fun x => x.alert_id == r.alert_id && x.user_id == r.user_id &&
            x.channel == r.channel) = [] := by
        rw [List.filter_eq_nil_iff]
        intro x hx
        intro hcontra
        exact hrow (List.any_eq_true.mpr ⟨x, hx, hcontra⟩)
      simp [hempty, List.filter_cons, hmatch]
    · have : (List.filter (fun x => x.alert_id == a && x.user_id == u &&
          x.channel == ch) [r]).length = 0 := by
        simp [List.filter_cons, hmatch]
      rw [List.length_append, this]
      simpa using hu a u ch

theorem step_preserves_unique (s s' : MState) (h : NStep s s')
    (hu : ledgerUnique s.rows) : ledgerUnique s'.rows := by
  cases h with
  | commitOk i a ex u rest rows2 hp hc =>
    exact commitInsert_preserves_unique s.rows rows2 _ hu hc
  | recoverOk i a ex u rest msg rows2 hp hc =>
    exact commitInsert_preserves_unique s.rows rows2 _ hu hc
  | snapshot => exact hu
  | skipExisting => exact hu
  | lockFail => exact hu
  | lockOk => exact hu
  | sendStep => exact hu
  | commitConflict => exact hu
  | sendFailed => exact hu
  | recoverConflict => exact hu
  | finish => exact hu

theorem reachable_unique (init s : MState) (hu : ledgerUnique init.rows)
    (hreach : Relation.ReflTransGen NStep init s) : ledgerUnique s.rows := by
  induction hreach with
  | refl => exact hu
  | tail _ hstep ih => exact step_preserves_unique _ _ hstep ih

/-- C1: for every alert and every user, across any number of sequential or
concurrent executions of `notify_for_alert` — modelled as interleaved steps of
the transition relation `NStep`, with the pre-existence check, the
advisory-lock claim, the send and the ledger commits as separate steps — at
most one `AlertNotification` row for the tuple (alert id, user id, "email")
ever reaches status "sent", provided the initial ledger respects its unique
constraint (e.g. is empty). -/
theorem no_double_send (init s : MState) (hu : ledgerUnique init.rows)
    (hreach : Relation.ReflTransGen NStep init s) (a u : Nat) :
    (s.rows.filter (fun r =>
      (r.alert_id == a && r.user_id == u && r.channel == "email") &&
      r.status == "sent")).length ≤ 1 := by
  have huniq := reachable_unique init s hu hreach
  calc (s.rows.filter (fun r =>
        (r.alert_id == a && r.user_id == u && r.channel == "email") &&
        r.status == "sent")).length
      ≤ (s.rows.filter (fun r =>
        r.alert_id == a && r.user_id == u && r.channel == "email")).length :=
        length_filter_and_le s.rows _ _
    _ ≤ 1 := huniq a u "email"

theorem no_double_send_witness :
    ((MState.mk [⟨1, 2, "email", "sent", none⟩] [] [⟨1, PC.loop [2] []⟩]).rows.filter
      (fun r => (r.alert_id == 1 && r.user_id == 2 && r.channel == "email") &&
        r.status == "sent")).length ≤ 1 := by
  have h0 : NStep ⟨[], [], [⟨1, PC.start [2]⟩]⟩ ⟨[], [], [⟨1, PC.loop [] [2]⟩]⟩ :=
    NStep.snapshot ⟨[], [], [⟨1, PC.start [2]⟩]⟩ 0 1 [2] rfl
  have h1 : NStep ⟨[], [], [⟨1, PC.loop [] [2]⟩]⟩
      ⟨[], [lock_key 1 2], [⟨1, PC.locked [] 2 []⟩]⟩ :=
    NStep.lockOk ⟨[], [], [⟨1, PC.loop [] [2]⟩]⟩ 0 1 [] 2 [] rfl rfl rfl
  have h2 : NStep ⟨[], [lock_key 1 2], [⟨1, PC.locked [] 2 []⟩]⟩
      ⟨[], [lock_key 1 2], [⟨1, PC.inflight [] 2 [] true⟩]⟩ :=
    NStep.sendStep ⟨[], [lock_key 1 2], [⟨1, PC.locked [] 2 []⟩]⟩ 0 1 [] 2 [] true rfl
  have h3 : NStep ⟨[], [lock_key 1 2], [⟨1, PC.inflight [] 2 [] true⟩]⟩
      ⟨[⟨1, 2, "email", "sent", none⟩], [], [⟨1, PC.loop [2] []⟩]⟩ := by
    have := NStep.commitOk ⟨[], [lock_key 1 2], [⟨1, PC.inflight [] 2 [] true⟩]⟩
      0 1 [] 2 [] [⟨1, 2, "email", "sent", none⟩] rfl (by rfl)
    simpa using this
  have hreach : Relation.ReflTransGen NStep ⟨[], [], [⟨1, PC.start [2]⟩]⟩
      ⟨[⟨1, 2, "email", "sent", none⟩], [], [⟨1, PC.loop [2] []⟩]⟩ :=
    Relation.ReflTransGen.tail
      (Relation.ReflTransGen.tail
        (Relation.ReflTransGen.tail
          (Relation.ReflTransGen.tail Relation.ReflTransGen.refl h0) h1) h2) h3
  exact no_double_send ⟨[], [], [⟨1, PC.start [2]⟩]⟩
    ⟨[⟨1, 2, "email", "sent", none⟩], [], [⟨1, PC.loop [2] []⟩]⟩
    (by unfold ledgerUnique; intro a u ch; simp) hreach 1 2

/-! ## Lemmas: every recipient updates exactly one counter -/

theorem processRecipient_counter (env : NotifyEnv) (alertId : Nat)
    (acc : List AlertNotification × Stats × List Nat) (u : User) :
    (processRecipient env alertId acc u).2.1.sent
      + (processRecipient env alertId acc u).2.1.failed
      + (processRecipient env alertId acc u).2.1.skipped
      = acc.2.1.sent + acc.2.1.failed + acc.2.1.skipped + 1 ∧
    (processRecipient env alertId acc u).2.1.alert_id = acc.2.1.alert_id ∧
    (processRecipient env alertId acc u).2.1.processed = acc.2.1.processed ∧
    (processRecipient env alertId acc u).2.1.eligible = acc.2.1.eligible ∧
    (processRecipient env alertId acc u).2.1.targets = acc.2.1.targets := by
  obtain ⟨rows, stats, ex⟩ := acc
  by_cases hmem : u.id ∈ ex
  · simp [processRecipient, hmem] <;> omega
  · by_cases hlock : env.tryLock alertId u.id
    · cases hsr : env.sendResult u.id with
      | ok v =>
        cases hci : commitInsert rows ⟨alertId, u.id, "email", "sent", none⟩ with
        | some rows2 =>
          simp [processRecipient, hmem, hlock, hsr, hci] <;> omega
        | none =>
          cases hcf : commitInsert rows
              ⟨alertId, u.id, "email", "failed", some (strTake "IntegrityError" 2000)⟩ with
          | some rows2 => simp [processRecipient, hmem, hlock, hsr, hci, hcf] <;> omega
          | none => simp [processRecipient, hmem, hlock, hsr, hci, hcf] <;> omega
      | error msg =>
        cases hcf : commitInsert rows
            ⟨alertId, u.id, "email", "failed", some (strTake msg 2000)⟩ with
        | some rows2 => simp [processRecipient, hmem, hlock, hsr, hcf] <;> omega
        | none => simp [processRecipient, hmem, hlock, hsr, hcf] <;> omega
    · simp [processRecipient, hmem, hlock] <;> omega

theorem foldl_counter (env : NotifyEnv) (alertId : Nat) (l : List User)
    (acc : List AlertNotification × Stats × List Nat) :
    (l.foldl (processRecipient env alertId) acc).2.1.sent
      + (l.foldl (processRecipient env alertId) acc).2.1.failed
      + (l.foldl (processRecipient env alertId) acc).2.1.skipped
      = acc.2.1.sent + acc.2.1.failed + acc.2.1.skipped + l.length ∧
    (l.foldl (processRecipient env alertId) acc).2.1.alert_id = acc.2.1.alert_id ∧
    (l.foldl (processRecipient env alertId) acc).2.1.processed = acc.2.1.processed ∧
    (l.foldl (processRecipient env alertId) acc).2.1.eligible = acc.2.1.eligible ∧
    (l.foldl (processRecipient env alertId) acc).2.1.targets = acc.2.1.targets := by
  induction l generalizing acc with
  | nil => simp
  | cons u t ih =>
    simp only [List.foldl_cons, List.length_cons]
    have h1 := processRecipient_counter env alertId acc u
    have h2 := ih (processRecipient env alertId acc u)
    refine ⟨by omega, ?_, ?_, ?_, ?_⟩
    · exact h2.2.1.trans h1.2.1
    · exact h2.2.2.1.trans h1.2.2.1
    · exact h2.2.2.2.1.trans h1.2.2.2.1
    · exact h2.2.2.2.2.trans h1.2.2.2.2

/-- C10: whenever `notify_for_alert` returns, the counters satisfy
sent + failed + skipped = targets (each recipient increments exactly one of
the three), and whenever processed or eligible is false all of targets, sent,
failed, skipped are 0. -/
theorem stats_conservation (env : NotifyEnv) (db : DB) (alert_id : Nat) :
    ((notify_for_alert env db alert_id).2.sent
      + (notify_for_alert env db alert_id).2.failed
      + (notify_for_alert env db alert_id).2.skipped
      = (notify_for_alert env db alert_id).2.targets) ∧
    (((notify_for_alert env db alert_id).2.processed = false ∨
      (notify_for_alert env db alert_id).2.eligible = false) →
      (notify_for_alert env db alert_id).2.targets = 0 ∧
      (notify_for_alert env db alert_id).2.sent = 0 ∧
      (notify_for_alert env db alert_id).2.failed = 0 ∧
      (notify_for_alert env db alert_id).2.skipped = 0) := by
  unfold notify_for_alert
  cases hga : get_alert db alert_id with
  | none => simp
  | some alert =>
    by_cases hlvl : alert.alert_level ∈ NOTIFIABLE_ALERT_LEVELS
    · by_cases hemp :
        (get_nearby_recipients env.dist env.now env.cfg db.users alert).isEmpty
      · have hlen :
            (get_nearby_recipients env.dist env.now env.cfg db.users alert).length = 0 := by
          simpa [List.isEmpty_iff] using hemp
        simp [hlvl, hemp, hlen]
      · have h := foldl_counter env alert.id
          (get_nearby_recipients env.dist env.now env.cfg db.users alert)
          (db.notifications,
           { alert_id := alert_id, processed := true, eligible := true,
             targets := (get_nearby_recipients env.dist env.now env.cfg db.users alert).length,
             sent := 0, failed := 0, skipped := 0 },
           existingUserIds db.notifications alert.id)
        simp only at h
        obtain ⟨hsum, hid, hproc, helig, htgt⟩ := h
        have hne : get_nearby_recipients env.dist env.now env.cfg db.users alert ≠ [] := by
          simpa [List.isEmpty_iff] using hemp
        simp [hlvl, hne]
        refine ⟨by omega, ?_⟩
        intro hcontra
        rcases hcontra with hp | he
        · simp [hproc] at hp
        · simp [helig] at he
    · simp [hlvl]

theorem stats_conservation_witness :
    (notify_for_alert
      { dist := fun _ _ => 0, now := 0,
        cfg := ⟨5000, 30, "", "./storage", 1000000⟩,
        geo := ⟨false, fun _ _ => none⟩, geoCache := [],
        fs := ⟨fun _ => none, fun _ => false, fun _ => false, fun _ => 0, fun _ => none⟩,
        tryLock := fun _ _ => true, sendResult := fun _ => .ok () }
      ⟨[], [], []⟩ 7).2.targets = 0 := by
  have h := stats_conservation
    { dist := fun _ _ => 0, now := 0,
      cfg := ⟨5000, 30, "", "./storage", 1000000⟩,
      geo := ⟨false, fun _ _ => none⟩, geoCache := [],
      fs := ⟨fun _ => none, fun _ => false, fun _ => false, fun _ => 0, fun _ => none⟩,
      tryLock := fun _ _ => true, sendResult := fun _ => .ok () }
    ⟨[], [], []⟩ 7
  exact (h.2 (Or.inl (by rfl))).1

/-- C5: a persisted alert whose severity is outside the notifiable set
{critical, warning, caution} (e.g. "low") yields stats with processed = true,
eligible = false and all counters 0, and leaves the database untouched (no
recipient selection outcome is observable, no ledger write happens). -/
theorem severity_gating (env : NotifyEnv) (db : DB) (alert_id : Nat) (alert : Alert)
    (hfind : get_alert db alert_id = some alert)
    (hlvl : NOTIFIABLE_ALERT_LEVELS.contains alert.alert_level = false) :
    notify_for_alert env db alert_id =
      (db, { alert_id := alert_id, processed := true, eligible := false,
             targets := 0, sent := 0, failed := 0, skipped := 0 }) := by
  unfold notify_for_alert
  rw [hfind]
  have hlvl2 : alert.alert_level ∉ NOTIFIABLE_ALERT_LEVELS := by simpa using hlvl
  simp [hlvl2]

theorem severity_gating_witness :
    notify_for_alert
      { dist := fun _ _ => 0, now := 0,
        cfg := ⟨5000, 30, "", "./storage", 1000000⟩,
        geo := ⟨false, fun _ _ => none⟩, geoCache := [],
        fs := ⟨fun _ => none, fun _ => false, fun _ => false, fun _ => 0, fun _ => none⟩,
        tryLock := fun _ _ => true, sendResult := fun _ => .ok () }
      ⟨[⟨12, "low", "クマを検出", none⟩], [⟨99, some "to@example.com", true, some (0, 0), some 0⟩], []⟩ 12 =
      (⟨[⟨12, "low", "クマを検出", none⟩], [⟨99, some "to@example.com", true, some (0, 0), some 0⟩], []⟩,
       { alert_id := 12, processed := true, eligible := false,
         targets := 0, sent := 0, failed := 0, skipped := 0 }) :=
  severity_gating _ _ 12 ⟨12, "low", "クマを検出", none⟩ rfl rfl

/-- C2: for a database holding a critical alert whose recipient selection
yields exactly one user and with no pre-existing ledger rows, a single
`notify_for_alert` call with a transport that accepts the message returns
stats processed/eligible true, targets 1, sent 1, failed 0, skipped 0, and
afterwards exactly one `AlertNotification` row with status "sent" exists for
(alert id, user id, "email"). -/
theorem critical_single_recipient_dispatch (env : NotifyEnv) (db : DB)
    (alert_id : Nat) (alert : Alert) (u : User)
    (hfind : get_alert db alert_id = some alert)
    (hlvl : alert.alert_level = "critical")
    (hrec : get_nearby_recipients env.dist env.now env.cfg db.users alert = [u])
    (hledger : db.notifications = [])
    (hlock : env.tryLock alert.id u.id = true)
    (hsend : env.sendResult u.id = Except.ok ()) :
    (notify_for_alert env db alert_id).2 =
      { alert_id := alert_id, processed := true, eligible := true,
        targets := 1, sent := 1, failed := 0, skipped := 0 } ∧
    ((notify_for_alert env db alert_id).1.notifications.filter (fun r =>
      r.alert_id == alert.id && r.user_id == u.id && r.channel == "email" &&
      r.status == "sent")).length = 1 := by
  have hmem : alert.alert_level ∈ NOTIFIABLE_ALERT_LEVELS := by
    rw [hlvl]; simp [NOTIFIABLE_ALERT_LEVELS]
  unfold notify_for_alert
  rw [hfind]
  simp [hmem, hrec, hledger, processRecipient, existingUserIds, hlock, hsend,
    commitInsert, hasRow, List.filter_cons]

theorem critical_single_recipient_dispatch_witness :
    (notify_for_alert demoEnv demoDB 12).2 =
      { alert_id := 12, processed := true, eligible := true,
        targets := 1, sent := 1, failed := 0, skipped := 0 } ∧
    ((notify_for_alert demoEnv demoDB 12).1.notifications.filter (fun r =>
      r.alert_id == 12 && r.user_id == 99 && r.channel == "email" &&
      r.status == "sent")).length = 1 :=
  critical_single_recipient_dispatch demoEnv demoDB 12 demoAlert demoUser
    rfl rfl (by decide) rfl rfl rfl

/-- C4: recipient selection returns exactly the users that pass the whole
filter chain — opted in, non-empty email, location and location timestamp
present, timestamp at least now minus the staleness window, and spatial
distance to the sighting's point within the configured radius — and returns
the empty list when no user qualifies. -/
theorem nearby_recipients_characterization
    (dist : ℚ × ℚ → ℚ × ℚ → ℚ) (now : Int) (cfg : Config)
    (users : List User) (alert : Alert) (s : Sighting)
    (hs : alert.sighting = some s) :
    (∀ u : User, u ∈ get_nearby_recipients dist now cfg users alert ↔
      u ∈ users ∧ u.email_opt_in = true ∧
      (∃ e, u.email = some e ∧ e ≠ "") ∧
      (∃ loc t, u.location = some loc ∧ u.location_updated_at = some t ∧
        now - cfg.NOTIFY_STALE_MINUTES ≤ t ∧
        dist loc (s.longitude, s.latitude) ≤ cfg.NOTIFY_RADIUS_METERS)) ∧
    ((∀ u ∈ users, ¬(u.email_opt_in = true ∧
      (∃ e, u.email = some e ∧ e ≠ "") ∧
      (∃ loc t, u.location = some loc ∧ u.location_updated_at = some t ∧
        now - cfg.NOTIFY_STALE_MINUTES ≤ t ∧
        dist loc (s.longitude, s.latitude) ≤ cfg.NOTIFY_RADIUS_METERS))) →
      get_nearby_recipients dist now cfg users alert = []) := by
  have hchar : ∀ u : User, u ∈ get_nearby_recipients dist now cfg users alert ↔
      u ∈ users ∧ u.email_opt_in = true ∧
      (∃ e, u.email = some e ∧ e ≠ "") ∧
      (∃ loc t, u.location = some loc ∧ u.location_updated_at = some t ∧
        now - cfg.NOTIFY_STALE_MINUTES ≤ t ∧
        dist loc (s.longitude, s.latitude) ≤ cfg.NOTIFY_RADIUS_METERS) := by
    intro u
    unfold get_nearby_recipients
    rw [hs, List.mem_filter]
    obtain ⟨uid, uem, uopt, uloc, ulu⟩ := u
    cases uem <;> cases uloc <;> cases ulu <;> simp <;> tauto
  refine ⟨hchar, ?_⟩
  intro hall
  rw [List.eq_nil_iff_forall_not_mem]
  intro u hu
  obtain ⟨hmem, hcond⟩ := (hchar u).mp hu
  exact hall u hmem ⟨hcond.1, hcond.2.1, hcond.2.2⟩

theorem nearby_recipients_characterization_witness :
    demoUser ∈ get_nearby_recipients (fun _ _ => 0) 0 demoCfg [demoUser] demoAlert :=
  ((nearby_recipients_characterization (fun _ _ => 0) 0 demoCfg [demoUser]
      demoAlert demoSighting rfl).1 demoUser).mpr
    ⟨by decide, by decide, ⟨"to@example.com", rfl, by decide⟩,
     ⟨(139, 35), 0, rfl, rfl, by decide, by decide⟩⟩

/-- C6: when the transport send for a recipient raises, the dispatcher rolls
back and records a "failed" ledger row carrying the exception text truncated
to 2000 characters and counts `failed` — unless committing that row itself
hits the uniqueness constraint, in which case the write is discarded and
`skipped` is counted instead; either way no exception propagates and the fold
continues over the remaining recipients from exactly that state. -/
theorem transport_failure_recorded (env : NotifyEnv) (alertId : Nat)
    (rows : List AlertNotification) (stats : Stats) (existing : List Nat)
    (u : User) (msg : String)
    (hmem : existing.contains u.id = false)
    (hlock : env.tryLock alertId u.id = true)
    (hsend : env.sendResult u.id = Except.error msg) :
    (processRecipient env alertId (rows, stats, existing) u =
      if hasRow rows alertId u.id "email" then
        (rows, { stats with skipped := stats.skipped + 1 }, existing)
      else
        (rows ++ [{ alert_id := alertId, user_id := u.id, channel := "email",
                    status := "failed", error_message := some (strTake msg 2000) }],
         { stats with failed := stats.failed + 1 }, existing)) ∧
    (∀ rest : List User,
      List.foldl (processRecipient env alertId) (rows, stats, existing) (u :: rest) =
      List.foldl (processRecipient env alertId)
        (processRecipient env alertId (rows, stats, existing) u) rest) := by
  refine ⟨?_, fun rest => rfl⟩
  have hmem2 : ¬ u.id ∈ existing := by
    intro hin
    rw [List.contains_eq_any_beq] at hmem
    have : existing.any (fun x => u.id == x) = true :=
      List.any_eq_true.mpr ⟨u.id, hin, by simp⟩
    simp [this] at hmem
  by_cases hrow : hasRow rows alertId u.id "email"
  · simp [processRecipient, hmem2, hlock, hsend, commitInsert, hrow]
  · simp [processRecipient, hmem2, hlock, hsend, commitInsert, hrow]

theorem transport_failure_recorded_witness :
    processRecipient
      { demoEnv with sendResult := fun _ => Except.error "boom" } 12
      ([], { alert_id := 12, processed := true, eligible := true,
             targets := 1, sent := 0, failed := 0, skipped := 0 }, []) demoUser =
      ([{ alert_id := 12, user_id := 99, channel := "email",
          status := "failed", error_message := some "boom" }],
       { alert_id := 12, processed := true, eligible := true,
         targets := 1, sent := 0, failed := 1, skipped := 0 }, []) := by
  have h := (transport_failure_recorded
    { demoEnv with sendResult := fun _ => Except.error "boom" } 12
    [] { alert_id := 12, processed := true, eligible := true,
         targets := 1, sent := 0, failed := 0, skipped := 0 } [] demoUser "boom"
    rfl rfl rfl).1
  simpa [hasRow] using h

/-- C9: `_build_image_attachment` returns `None` whenever the resolved image
path is not strictly inside the resolved storage root, or the path is not an
existing regular file, or its extension is outside the image MIME allow-list,
or its size exceeds the attachment byte ceiling — so a file outside the
storage root is never attached. -/
theorem attachment_guard_none (fs : FSModel) (storagePath : String)
    (maxBytes : Nat) (s : Sighting) (ip : String) (p root : List String)
    (hip : s.image_path = some ip) (hne : ip ≠ "")
    (hres : fs.resolve ip = some p) (hroot : fs.resolve storagePath = some root) :
    (inParents root p = false →
      build_image_attachment fs storagePath maxBytes (some s) = none) ∧
    (fs.pathExists p = false →
      build_image_attachment fs storagePath maxBytes (some s) = none) ∧
    (fs.isFile p = false →
      build_image_attachment fs storagePath maxBytes (some s) = none) ∧
    ((mime_type_map.find? (fun e => e.1 == strLower (pathSuffix (pathName p)))) = none →
      build_image_attachment fs storagePath maxBytes (some s) = none) ∧
    (fs.size p > maxBytes →
      build_image_attachment fs storagePath maxBytes (some s) = none) := by
  have hne2 : (ip == "") = false := by
    simpa using hne
  refine ⟨?_, ?_, ?_, ?_, ?_⟩ <;> intro hguard
  · simp [build_image_attachment, hip, hne2, hres, hroot, hguard]
  · by_cases h1 : inParents root p <;>
      simp [build_image_attachment, hip, hne2, hres, hroot, hguard, h1]
  · by_cases h1 : inParents root p <;>
      simp [build_image_attachment, hip, hne2, hres, hroot, hguard, h1]
  · by_cases h1 : inParents root p <;>
      by_cases h2 : fs.pathExists p <;>
      by_cases h3 : fs.isFile p <;>
      by_cases h4 : fs.size p > maxBytes <;>
      simp only [build_image_attachment, hip, hne2, hres, hroot, hguard, h1, h2, h3, h4] <;>
      simp [hguard, h4]
  · by_cases h1 : inParents root p <;>
      by_cases h2 : fs.pathExists p <;>
      by_cases h3 : fs.isFile p <;>
      simp [build_image_attachment, hip, hne2, hres, hroot, hguard, h1, h2, h3]

theorem attachment_guard_none_witness :
    build_image_attachment
      { resolve := fun pth => if pth == "/tmp/evil.jpg" then some ["tmp", "evil.jpg"]
          else some ["app", "storage"],
        pathExists := fun _ => true, isFile := fun _ => true,
        size := fun _ => 10, readBytes := fun _ => some [1, 2, 3] }
      "./storage" 1000000
      (some { demoSighting with image_path := some "/tmp/evil.jpg" }) = none := by
  have h := attachment_guard_none
    { resolve := fun pth => if pth == "/tmp/evil.jpg" then some ["tmp", "evil.jpg"]
        else some ["app", "storage"],
      pathExists := fun _ => true, isFile := fun _ => true,
      size := fun _ => 10, readBytes := fun _ => some [1, 2, 3] }
    "./storage" 1000000 { demoSighting with image_path := some "/tmp/evil.jpg" }
    "/tmp/evil.jpg" ["tmp", "evil.jpg"] ["app", "storage"]
    rfl (by decide) rfl rfl
  exact h.1 (by decide)

theorem joinWith_mem_split (sep x : String) (l : List String) (hx : x ∈ l) :
    ∃ p q, joinWith sep l = p ++ x ++ q := by
  induction l with
  | nil => cases hx
  | cons y ys ih =>
    cases hx with
    | head =>
      cases ys with
      | nil => exact ⟨"", "", by simp [joinWith]⟩
      | cons z zs =>
        exact ⟨"", sep ++ joinWith sep (z :: zs), by simp [joinWith, String.append_assoc]⟩
    | tail _ hmem =>
      obtain ⟨p, q, hpq⟩ := ih hmem
      cases ys with
      | nil => cases hmem
      | cons z zs =>
        exact ⟨y ++ sep ++ p, q, by simp [joinWith, hpq, String.append_assoc]⟩

/-- C8: when the reverse-geocoding lookup fails (HTTP raise, timeout or
unparsable payload, i.e. the whole `except` branch) on a cache miss,
`reverse_geocode` returns `None` without raising, `_format_address` degrades
to the explicit failure marker, and the composed body still contains the
marker line together with the raw-coordinates line. -/
theorem geocode_failure_graceful (genv : GeoEnv) (cache : GeoCache)
    (alert : Alert) (s : Sighting) (image_url : Option String) (has_attachment : Bool)
    (hs : alert.sighting = some s)
    (hmiss : cacheFind cache (cache_key s.latitude s.longitude) = none)
    (hhttp : genv.http s.latitude s.longitude = none) :
    (reverse_geocode genv cache s.latitude s.longitude).2 = none ∧
    format_address genv cache s.latitude s.longitude = "取得失敗（緯度経度を参照）" ∧
    (∃ p q, build_email_body genv cache alert image_url has_attachment =
      p ++ "住所: 取得失敗（緯度経度を参照）" ++ q) ∧
    (∃ p q, build_email_body genv cache alert image_url has_attachment =
      p ++ ("位置: 緯度 " ++ fmt6 s.latitude ++ ", 経度 " ++ fmt6 s.longitude) ++ q) := by
  have hrg : reverse_geocode genv cache s.latitude s.longitude = (cache, none) := by
    unfold reverse_geocode
    by_cases hen : genv.enabled
    · simp [hen, hmiss, hhttp]
    · simp [hen]
  have hfa : format_address genv cache s.latitude s.longitude =
      "取得失敗（緯度経度を参照）" := by
    unfold format_address
    rw [hrg]
  have hmem1 : ("住所: " ++ format_address genv cache s.latitude s.longitude) ∈
      build_email_body_lines genv cache alert image_url has_attachment := by
    simp [build_email_body_lines, hs]
  have hmem2 : ("位置: 緯度 " ++ fmt6 s.latitude ++ ", 経度 " ++ fmt6 s.longitude) ∈
      build_email_body_lines genv cache alert image_url has_attachment := by
    simp [build_email_body_lines, hs]
  rw [hfa] at hmem1
  have hcollapse : ("住所: " ++ "取得失敗（緯度経度を参照）" : String) =
      "住所: 取得失敗（緯度経度を参照）" := rfl
  rw [hcollapse] at hmem1
  refine ⟨by rw [hrg], hfa, ?_, ?_⟩
  · exact joinWith_mem_split "\n" _ _ hmem1
  · exact joinWith_mem_split "\n" _ _ hmem2

theorem geocode_failure_graceful_witness :
    (reverse_geocode ⟨true, fun _ _ => none⟩ []
      demoSighting.latitude demoSighting.longitude).2 = none ∧
    format_address ⟨true, fun _ _ => none⟩ []
      demoSighting.latitude demoSighting.longitude = "取得失敗（緯度経度を参照）" := by
  have h := geocode_failure_graceful ⟨true, fun _ _ => none⟩ [] demoAlert
    demoSighting none false rfl rfl rfl
  exact ⟨h.1, h.2.1⟩

theorem bankersRound_intCast (n : ℤ) : bankersRound (n : ℚ) = n := by
  unfold bankersRound
  simp [Int.floor_intCast]

theorem bankersRound_intValue (q : ℚ) (n : ℤ) (h : q = (n : ℚ)) :
    bankersRound q = n := by
  subst h
  exact bankersRound_intCast n

theorem reverse_geocode_miss (env : GeoEnv) (cache : GeoCache) (lat lon : ℚ)
    (p : Json) (hen : env.enabled = true)
    (hmiss : cacheFind cache (cache_key lat lon) = none)
    (hhttp : env.http lat lon = some p) :
    reverse_geocode env cache lat lon =
      (cache ++ [(cache_key lat lon, some (extract_address_components p))],
       some (extract_address_components p)) := by
  unfold reverse_geocode
  simp [hen, hmiss, hhttp]

theorem reverse_geocode_hit (env : GeoEnv) (cache : GeoCache) (lat lon : ℚ)
    (v : Option AddressResult) (hen : env.enabled = true)
    (hhit : cacheFind cache (cache_key lat lon) = some v) :
    reverse_geocode env cache lat lon = (cache, v) := by
  unfold reverse_geocode
  simp [hen, hhit]

/-- C7 (refuting the bounded-cache behaviour; the repository's own test
`test_reverse_geocode_lru_cache_max_size` expects a capacity-2 cache to evict
the oldest key and re-fetch it on the fourth call): in the source the module
cache only ever grows — every call returns a cache extending the old one, no
entry is ever evicted, no capacity is consulted — and after three distinct
keys the first key is still cached, so a fourth lookup of it is a cache hit
that performs no fetch and leaves the cache unchanged. -/
theorem geocode_cache_never_evicts :
    (∀ (env : GeoEnv) (cache : GeoCache) (lat lon : ℚ),
      ∃ ext, (reverse_geocode env cache lat lon).1 = cache ++ ext) ∧
    lruCache3.length = 3 ∧
    reverse_geocode lruEnv lruCache3 1 0 = (lruCache3, some ⟨none, none⟩) := by
  have hk1 : cache_key 1 0 = (1, 0) := by
    unfold cache_key
    rw [bankersRound_intValue (1 * 1000000 : ℚ) 1000000 (by norm_num),
      bankersRound_intValue (0 * 1000000 : ℚ) 0 (by norm_num)]
    norm_num
  have hk2 : cache_key 2 0 = (2, 0) := by
    unfold cache_key
    rw [bankersRound_intValue (2 * 1000000 : ℚ) 2000000 (by norm_num),
      bankersRound_intValue (0 * 1000000 : ℚ) 0 (by norm_num)]
    norm_num
  have hk3 : cache_key 3 0 = (3, 0) := by
    unfold cache_key
    rw [bankersRound_intValue (3 * 1000000 : ℚ) 3000000 (by norm_num),
      bankersRound_intValue (0 * 1000000 : ℚ) 0 (by norm_num)]
    norm_num
  have h1 : lruCache1 = [((1, 0), some ⟨none, none⟩)] := by
    unfold lruCache1
    rw [reverse_geocode_miss lruEnv [] 1 0 (Json.obj []) rfl rfl rfl, hk1]
    rfl
  have h2 : lruCache2 = [((1, 0), some ⟨none, none⟩), ((2, 0), some ⟨none, none⟩)] := by
    unfold lruCache2
    rw [h1]
    rw [reverse_geocode_miss lruEnv [((1, 0), some ⟨none, none⟩)] 2 0 (Json.obj [])
      rfl (by rw [hk2]; decide) rfl, hk2]
    rfl
  have h3 : lruCache3 = [((1, 0), some ⟨none, none⟩), ((2, 0), some ⟨none, none⟩),
      ((3, 0), some ⟨none, none⟩)] := by
    unfold lruCache3
    rw [h2]
    rw [reverse_geocode_miss lruEnv [((1, 0), some ⟨none, none⟩),
      ((2, 0), some ⟨none, none⟩)] 3 0 (Json.obj []) rfl (by rw [hk3]; decide) rfl, hk3]
    rfl
  refine ⟨?_, ?_, ?_⟩
  · intro env cache lat lon
    unfold reverse_geocode
    by_cases hen : env.enabled
    · cases hhit : cacheFind cache (cache_key lat lon) with
      | some v => exact ⟨[], by simp [hen, hhit]⟩
      | none =>
        cases hhttp : env.http lat lon with
        | some p =>
          exact ⟨[(cache_key lat lon, some (extract_address_components p))],
            by simp [hen, hhit, hhttp]⟩
        | none => exact ⟨[], by simp [hen, hhit, hhttp]⟩
    · exact ⟨[], by simp [hen]⟩
  · rw [h3]
    rfl
  · rw [reverse_geocode_hit lruEnv lruCache3 1 0 (some ⟨none, none⟩) rfl
      (by rw [h3, hk1]; decide)]

/-! ## Lemmas towards idempotent re-dispatch -/

theorem hasRow_append_left (rows ext : List AlertNotification) (a u : Nat)
    (ch : String) (h : hasRow rows a u ch = true) :
    hasRow (rows ++ ext) a u ch = true := by
  unfold hasRow at h ⊢
  rw [List.any_append, h]
  simp

theorem hasRow_append_self (rows : List AlertNotification) (a u : Nat)
    (ch st : String) (em : Option String) :
    hasRow (rows ++ [⟨a, u, ch, st, em⟩]) a u ch = true := by
  unfold hasRow
  rw [List.any_append]
  simp

theorem commitInsert_eq_none_iff (rows : List AlertNotification)
    (r : AlertNotification) :
    commitInsert rows r = none ↔ hasRow rows r.alert_id r.user_id r.channel = true := by
  unfold commitInsert
  by_cases h : hasRow rows r.alert_id r.user_id r.channel <;> simp [h]

theorem processRecipient_rows_ext (env : NotifyEnv) (alertId : Nat)
    (acc : List AlertNotification × Stats × List Nat) (u : User) :
    ∃ ext, (processRecipient env alertId acc u).1 = acc.1 ++ ext := by
  obtain ⟨rows, stats, ex⟩ := acc
  by_cases hmem : u.id ∈ ex
  · exact ⟨[], by simp [processRecipient, hmem]⟩
  · by_cases hlock : env.tryLock alertId u.id
    · cases hsr : env.sendResult u.id with
      | ok v =>
        cases hci : commitInsert rows ⟨alertId, u.id, "email", "sent", none⟩ with
        | some rows2 =>
          refine ⟨[⟨alertId, u.id, "email", "sent", none⟩], ?_⟩
          have : rows2 = rows ++ [⟨alertId, u.id, "email", "sent", none⟩] := by
            unfold commitInsert at hci
            by_cases h : hasRow rows alertId u.id "email"
            · simp [h] at hci
            · simp [h] at hci
              exact hci.symm
          simp [processRecipient, hmem, hlock, hsr, hci, this]
        | none =>
          cases hcf : commitInsert rows
              ⟨alertId, u.id, "email", "failed", some (strTake "IntegrityError" 2000)⟩ with
          | some rows2 =>
            refine ⟨[⟨alertId, u.id, "email", "failed", some (strTake "IntegrityError" 2000)⟩], ?_⟩
            have : rows2 = rows ++ [⟨alertId, u.id, "email", "failed", some (strTake "IntegrityError" 2000)⟩] := by
              unfold commitInsert at hcf
              by_cases h : hasRow rows alertId u.id "email"
              · simp [h] at hcf
              · simp [h] at hcf
                exact hcf.symm
            simp [processRecipient, hmem, hlock, hsr, hci, hcf, this]
          | none => exact ⟨[], by simp [processRecipient, hmem, hlock, hsr, hci, hcf]⟩
      | error msg =>
        cases hcf : commitInsert rows
            ⟨alertId, u.id, "email", "failed", some (strTake msg 2000)⟩ with
        | some rows2 =>
          refine ⟨[⟨alertId, u.id, "email", "failed", some (strTake msg 2000)⟩], ?_⟩
          have : rows2 = rows ++ [⟨alertId, u.id, "email", "failed", some (strTake msg 2000)⟩] := by
            unfold commitInsert at hcf
            by_cases h : hasRow rows alertId u.id "email"
            · simp [h] at hcf
            · simp [h] at hcf
              exact hcf.symm
          simp [processRecipient, hmem, hlock, hsr, hcf, this]
        | none => exact ⟨[], by simp [processRecipient, hmem, hlock, hsr, hcf]⟩
    · exact ⟨[], by simp [processRecipient, hmem, hlock]⟩

theorem foldl_rows_ext (env : NotifyEnv) (alertId : Nat) (l : List User)
    (acc : List AlertNotification × Stats × List Nat) :
    ∃ ext, (l.foldl (processRecipient env alertId) acc).1 = acc.1 ++ ext := by
  induction l generalizing acc with
  | nil => exact ⟨[], by simp⟩
  | cons u t ih =>
    obtain ⟨e1, h1⟩ := processRecipient_rows_ext env alertId acc u
    obtain ⟨e2, h2⟩ := ih (processRecipient env alertId acc u)
    exact ⟨e1 ++ e2, by rw [List.foldl_cons, h2, h1, List.append_assoc]⟩

theorem mem_existingUserIds (rows : List AlertNotification) (a uid : Nat) :
    uid ∈ existingUserIds rows a ↔ hasRow rows a uid "email" = true := by
  unfold existingUserIds hasRow
  rw [List.mem_map, List.any_eq_true]
  constructor
  · rintro ⟨r, hr, hru⟩
    rw [List.mem_filter] at hr
    refine ⟨r, hr.1, ?_⟩
    have hcond := hr.2
    simp only [Bool.and_eq_true, beq_iff_eq] at hcond ⊢
    exact ⟨⟨hcond.1, hru⟩, hcond.2⟩
  · rintro ⟨r, hr, hcond⟩
    simp only [Bool.and_eq_true, beq_iff_eq] at hcond
    refine ⟨r, List.mem_filter.mpr ⟨hr, ?_⟩, hcond.1.2⟩
    simp only [Bool.and_eq_true, beq_iff_eq]
    exact ⟨hcond.1.1, hcond.2⟩

theorem processRecipient_covers (env : NotifyEnv) (alertId : Nat)
    (rows : List AlertNotification) (stats : Stats) (ex : List Nat) (u : User)
    (hlock : ∀ a v, env.tryLock a v = true)
    (hcov : ∀ uid ∈ ex, hasRow rows alertId uid "email" = true) :
    (∀ uid ∈ (processRecipient env alertId (rows, stats, ex) u).2.2,
      hasRow (processRecipient env alertId (rows, stats, ex) u).1 alertId uid "email" = true) ∧
    hasRow (processRecipient env alertId (rows, stats, ex) u).1 alertId u.id "email" = true := by
  by_cases hmem : u.id ∈ ex
  · have hred : processRecipient env alertId (rows, stats, ex) u =
        (rows, { stats with skipped := stats.skipped + 1 }, ex) := by
      simp [processRecipient, hmem]
    rw [hred]
    exact ⟨hcov, hcov u.id hmem⟩
  · have hl := hlock alertId u.id
    cases hsr : env.sendResult u.id with
    | ok v =>
      cases hci : commitInsert rows ⟨alertId, u.id, "email", "sent", none⟩ with
      | some rows2 =>
        have hrows2 : rows2 = rows ++ [⟨alertId, u.id, "email", "sent", none⟩] := by
          unfold commitInsert at hci
          by_cases h : hasRow rows alertId u.id "email"
          · simp [h] at hci
          · simp [h] at hci
            exact hci.symm
        have hred : processRecipient env alertId (rows, stats, ex) u =
            (rows2, { stats with sent := stats.sent + 1 }, ex ++ [u.id]) := by
          simp [processRecipient, hmem, hl, hsr, hci]
        rw [hred]
        subst hrows2
        constructor
        · intro uid huid
          rcases List.mem_append.mp huid with hold | hnew
          · exact hasRow_append_left _ _ _ _ _ (hcov uid hold)
          · have : uid = u.id := by simpa using hnew
            subst this
            exact hasRow_append_self rows alertId u.id "email" "sent" none
        · exact hasRow_append_self rows alertId u.id "email" "sent" none
      | none =>
        have hrow : hasRow rows alertId u.id "email" = true := by
          have := (commitInsert_eq_none_iff rows ⟨alertId, u.id, "email", "sent", none⟩).mp hci
          simpa using this
        have hcf : commitInsert rows
            ⟨alertId, u.id, "email", "failed", some (strTake "IntegrityError" 2000)⟩ = none := by
          rw [commitInsert_eq_none_iff]
          simpa using hrow
        have hred : processRecipient env alertId (rows, stats, ex) u =
            (rows, { stats with skipped := stats.skipped + 1 }, ex) := by
          simp [processRecipient, hmem, hl, hsr, hci, hcf]
        rw [hred]
        exact ⟨hcov, hrow⟩
    | error msg =>
      cases hcf : commitInsert rows
          ⟨alertId, u.id, "email", "failed", some (strTake msg 2000)⟩ with
      | some rows2 =>
        have hrows2 : rows2 = rows ++ [⟨alertId, u.id, "email", "failed", some (strTake msg 2000)⟩] := by
          unfold commitInsert at hcf
          by_cases h : hasRow rows alertId u.id "email"
          · simp [h] at hcf
          · simp [h] at hcf
            exact hcf.symm
        have hred : processRecipient env alertId (rows, stats, ex) u =
            (rows2, { stats with failed := stats.failed + 1 }, ex) := by
          simp [processRecipient, hmem, hl, hsr, hcf]
        rw [hred]
        subst hrows2
        constructor
        · intro uid huid
          exact hasRow_append_left _ _ _ _ _ (hcov uid huid)
        · exact hasRow_append_self rows alertId u.id "email" "failed" _
      | none =>
        have hrow : hasRow rows alertId u.id "email" = true := by
          have := (commitInsert_eq_none_iff rows
            ⟨alertId, u.id, "email", "failed", some (strTake msg 2000)⟩).mp hcf
          simpa using this
        have hred : processRecipient env alertId (rows, stats, ex) u =
            (rows, { stats with skipped := stats.skipped + 1 }, ex) := by
          simp [processRecipient, hmem, hl, hsr, hcf]
        rw [hred]
        exact ⟨hcov, hrow⟩

theorem foldl_covers (env : NotifyEnv) (alertId : Nat) (l : List User)
    (rows : List AlertNotification) (stats : Stats) (ex : List Nat)
    (hlock : ∀ a v, env.tryLock a v = true)
    (hcov : ∀ uid ∈ ex, hasRow rows alertId uid "email" = true) :
    ∀ u ∈ l, hasRow (l.foldl (processRecipient env alertId) (rows, stats, ex)).1
      alertId u.id "email" = true := by
  induction l generalizing rows stats ex with
  | nil => simp
  | cons v t ih =>
    intro u hu
    rcases hmid : processRecipient env alertId (rows, stats, ex) v with ⟨rows1, stats1, ex1⟩
    have hstep := processRecipient_covers env alertId rows stats ex v hlock hcov
    rw [hmid] at hstep
    rw [List.foldl_cons, hmid]
    cases hu with
    | head =>
      obtain ⟨ext, hext⟩ := foldl_rows_ext env alertId t (rows1, stats1, ex1)
      rw [hext]
      exact hasRow_append_left _ _ _ _ _ hstep.2
    | tail _ hu => exact ih rows1 stats1 ex1 hstep.1 u hu

theorem foldl_all_existing (env : NotifyEnv) (alertId : Nat) (l : List User)
    (rows : List AlertNotification) (stats : Stats) (ex : List Nat)
    (hall : ∀ u ∈ l, u.id ∈ ex) :
    l.foldl (processRecipient env alertId) (rows, stats, ex) =
      (rows, { stats with skipped := stats.skipped + l.length }, ex) := by
  induction l generalizing stats with
  | nil => simp
  | cons v t ih =>
    have hall2 : ∀ u ∈ t, u.id ∈ ex := fun u hu => hall u (List.mem_cons_of_mem v hu)
    have hv : v.id ∈ ex := hall v (List.mem_cons_self v t)
    have hbody : processRecipient env alertId (rows, stats, ex) v =
        (rows, { stats with skipped := stats.skipped + 1 }, ex) := by
      simp [processRecipient, hv]
    rw [List.foldl_cons, hbody,
      ih { stats with skipped := stats.skipped + 1 } hall2]
    have : stats.skipped + 1 + t.length = stats.skipped + (t.length + 1) := by omega
    simp [this]

theorem notify_eligible_formula (env : NotifyEnv) (db : DB) (alert_id : Nat)
    (alert : Alert)
    (hga : get_alert db alert_id = some alert)
    (hlvl : alert.alert_level ∈ NOTIFIABLE_ALERT_LEVELS)
    (hne : get_nearby_recipients env.dist env.now env.cfg db.users alert ≠ []) :
    notify_for_alert env db alert_id =
      ({ db with notifications :=
          ((get_nearby_recipients env.dist env.now env.cfg db.users alert).foldl
            (processRecipient env alert.id)
            (db.notifications,
             { alert_id := alert_id, processed := true, eligible := true,
               targets := (get_nearby_recipients env.dist env.now env.cfg db.users alert).length,
               sent := 0, failed := 0, skipped := 0 },
             existingUserIds db.notifications alert.id)).1 },
       ((get_nearby_recipients env.dist env.now env.cfg db.users alert).foldl
         (processRecipient env alert.id)
         (db.notifications,
          { alert_id := alert_id, processed := true, eligible := true,
            targets := (get_nearby_recipients env.dist env.now env.cfg db.users alert).length,
            sent := 0, failed := 0, skipped := 0 },
          existingUserIds db.notifications alert.id)).2.1) := by
  unfold notify_for_alert
  rw [hga]
  simp [hlvl, hne]

theorem notify_noop_db (env : NotifyEnv) (db : DB) (alert_id : Nat)
    (h : get_alert db alert_id = none ∨
      (∃ alert, get_alert db alert_id = some alert ∧
        (alert.alert_level ∉ NOTIFIABLE_ALERT_LEVELS ∨
         get_nearby_recipients env.dist env.now env.cfg db.users alert = []))) :
    (notify_for_alert env db alert_id).1 = db := by
  unfold notify_for_alert
  rcases h with hga | ⟨alert, hga, hcase⟩
  · rw [hga]
  · rw [hga]
    rcases hcase with hlvl | hne
    · simp [hlvl]
    · by_cases hlvl : alert.alert_level ∈ NOTIFIABLE_ALERT_LEVELS <;> simp [hlvl, hne]

/-- C3: running `notify_for_alert` twice in sequence over the same
environment (advisory locks uncontended, as in any purely sequential
execution), with nothing but the first call itself touching the ledger or the
recipient set, makes the second call send nothing and skip every target:
`sent = 0` and `skipped = targets`, because every recipient already has a
ledger row for (alert, user, "email") — whether that row's status is "sent"
or "failed". -/
theorem redispatch_idempotent (env : NotifyEnv) (db : DB) (alert_id : Nat)
    (hlock : ∀ a v, env.tryLock a v = true) :
    (notify_for_alert env (notify_for_alert env db alert_id).1 alert_id).2.sent = 0 ∧
    (notify_for_alert env (notify_for_alert env db alert_id).1 alert_id).2.skipped =
      (notify_for_alert env (notify_for_alert env db alert_id).1 alert_id).2.targets := by
  cases hga : get_alert db alert_id with
  | none =>
    rw [notify_noop_db env db alert_id (Or.inl hga)]
    unfold notify_for_alert
    rw [hga]
    simp
  | some alert =>
    by_cases hlvl : alert.alert_level ∈ NOTIFIABLE_ALERT_LEVELS
    case neg =>
      rw [notify_noop_db env db alert_id (Or.inr ⟨alert, hga, Or.inl hlvl⟩)]
      unfold notify_for_alert
      rw [hga]
      simp [hlvl]
    case pos =>
      by_cases hne : get_nearby_recipients env.dist env.now env.cfg db.users alert = []
      · rw [notify_noop_db env db alert_id (Or.inr ⟨alert, hga, Or.inr hne⟩)]
        unfold notify_for_alert
        rw [hga]
        simp [hlvl, hne]
      · have h1 := notify_eligible_formula env db alert_id alert hga hlvl hne
        have hcov0 : ∀ uid ∈ existingUserIds db.notifications alert.id,
            hasRow db.notifications alert.id uid "email" = true :=
          fun uid huid => (mem_existingUserIds db.notifications alert.id uid).mp huid
        have hcovered := foldl_covers env alert.id
          (get_nearby_recipients env.dist env.now env.cfg db.users alert)
          db.notifications
          { alert_id := alert_id, processed := true, eligible := true,
            targets := (get_nearby_recipients env.dist env.now env.cfg db.users alert).length,
            sent := 0, failed := 0, skipped := 0 }
          (existingUserIds db.notifications alert.id) hlock hcov0
        rw [h1]
        have hga2 : get_alert
            { db with notifications :=
              ((get_nearby_recipients env.dist env.now env.cfg db.users alert).foldl
                (processRecipient env alert.id)
                (db.notifications,
                 { alert_id := alert_id, processed := true, eligible := true,
                   targets := (get_nearby_recipients env.dist env.now env.cfg db.users alert).length,
                   sent := 0, failed := 0, skipped := 0 },
                 existingUserIds db.notifications alert.id)).1 } alert_id = some alert := hga
        have h2 := notify_eligible_formula env
          { db with notifications :=
            ((get_nearby_recipients env.dist env.now env.cfg db.users alert).foldl
              (processRecipient env alert.id)
              (db.notifications,
               { alert_id := alert_id, processed := true, eligible := true,
                 targets := (get_nearby_recipients env.dist env.now env.cfg db.users alert).length,
                 sent := 0, failed := 0, skipped := 0 },
               existingUserIds db.notifications alert.id)).1 }
          alert_id alert hga2 hlvl hne
        simp only [] at h2
        rw [h2]
        have hall : ∀ u ∈ get_nearby_recipients env.dist env.now env.cfg db.users alert,
            u.id ∈ existingUserIds
              ((get_nearby_recipients env.dist env.now env.cfg db.users alert).foldl
                (processRecipient env alert.id)
                (db.notifications,
                 { alert_id := alert_id, processed := true, eligible := true,
                   targets := (get_nearby_recipients env.dist env.now env.cfg db.users alert).length,
                   sent := 0, failed := 0, skipped := 0 },
                 existingUserIds db.notifications alert.id)).1 alert.id :=
          fun u hu => (mem_existingUserIds _ alert.id u.id).mpr (hcovered u hu)
        rw [foldl_all_existing env alert.id _ _ _ _ hall]
        simp

theorem redispatch_idempotent_witness :
    (notify_for_alert demoEnv (notify_for_alert demoEnv demoDB 12).1 12).2.sent = 0 ∧
    (notify_for_alert demoEnv (notify_for_alert demoEnv demoDB 12).1 12).2.skipped =
      (notify_for_alert demoEnv (notify_for_alert demoEnv demoDB 12).1 12).2.targets :=
  redispatch_idempotent demoEnv demoDB 12 (fun _ _ => rfl)
